import Mathlib

/-!
# Verification of ngrok-rs connection forwarding (src/ngrok/src/tunnel_ext.rs)

Shallow embedding of the forwarding subsystem: the forwarding loop
(`TunnelExt::forward`), the destination connector (`connect`), the TLS client
configuration cache (`tls_config`), the failure degradation responder
(`on_err` / `serve_gateway_error`), and the named-pipe busy-retry dial loop.

Conventions of the embedding:
* Rust `io::Error` is modelled as a kind plus a message string; the spec's
  `InvalidDestination` corresponds to `io::ErrorKind::InvalidInput` and the
  spec's `SourceUnavailable` to `io::ErrorKind::NotConnected` (the kinds the
  source actually constructs).
* I/O itself (TCP connect, TLS handshake, unix/pipe open, byte copying) is
  not executed; the connector is modelled as the pure computation of a
  `DialPlan` describing exactly which transport operation `connect` performs
  with which resolved address, and loops over I/O outcomes are parametrised
  by the outcome sequence the environment would produce.
* A `Url` is the parsed form the `url` crate hands to `connect`: scheme,
  optional host, optional port, path, matching the spec's data model.
-/

/-- Model of `std::io::ErrorKind`, restricted to the kinds this file
constructs or inspects: `InvalidInput` (spec: `InvalidDestination`),
`NotConnected` (spec: `SourceUnavailable`), and a catch-all for errors that
originate in the OS (dial failures, trust-store load failures, ...). -/
inductive IoErrorKind where
  | invalidInput
  | notConnected
  | osOther
deriving DecidableEq, Repr

/-- Model of `std::io::Error`: a kind plus the display string of its payload
(the code always builds errors via `io::Error::new(kind, message)`). -/
structure IoError where
  kind : IoErrorKind
  msg : String
deriving DecidableEq, Repr

/-- Parsed destination URL as `connect` receives it from the `url` crate:
scheme, optional host (`Url::host_str`), optional port (`Url::port`), and
path (`Url::path`). -/
structure Url where
  scheme : String
  host : Option String
  port : Option Nat
  path : String
deriving DecidableEq, Repr

/-- Model of the `Display` serialization of `url::Url` as interpolated into
error messages by `format!("... {url}")`: scheme, then `://host[:port]` when
an authority is present, then the path. -/
def Url.render (u : Url) : String :=
  u.scheme ++ ":" ++
    (match u.host with
      | some h =>
        "//" ++ h ++ (match u.port with | some p => ":" ++ toString p | none => "")
      | none => "") ++
    u.path

/-- Build platform, mirroring the `#[cfg(target_os = "windows")]` /
`#[cfg(not(target_os = "windows"))]` conditional compilation in
`tunnel_ext.rs`: the `"unix"` match arm exists only off Windows and the
`"pipe"` arm only on Windows. -/
inductive Platform where
  | windows
  | notWindows
deriving DecidableEq, Repr

/-- The transport operation `connect` performs for a URL, with the resolved
address values it passes to the underlying dial:
* `tcp host port` — `connect_tcp(host, port)` (the `"tcp"` and `"http"` arms);
* `tlsTcp host port sni` — `connect_tcp(host, port)` followed by a TLS client
  handshake with server name `sni` using the shared `tls_config()`
  (the `"https" | "tls"` arm);
* `unixSock addr` — `UnixStream::connect(addr)`;
* `pipe addr` — the named-pipe open loop on the full address `addr`. -/
inductive DialPlan where
  | tcp (host : String) (port : Nat)
  | tlsTcp (host : String) (port : Nat) (sni : String)
  | unixSock (addr : String)
  | pipe (addr : String)
deriving DecidableEq, Repr

/-- Unix socket path resolution from the `"unix"` arm of `connect`:
`addr` starts as `url.path()`; if the URL has a host component the host is
prepended (`format!("{host}{addr}")`), making the path relative. -/
def unixSocketAddr (host : Option String) (path : String) : String :=
  match host with
  | some h => h ++ path
  | none => path

/-- Pipe name resolution from the `"pipe"` arm of `connect`: the name starts
as `url.path()`; when the URL has a host component, one leading `/` is
stripped — Rust's `strip_prefix('/').unwrap_or(pipe_name)`, rendered here as
a take/drop test on the first character. -/
def pipeResolvedName (host : Option String) (path : String) : String :=
  match host with
  | some _ => if path.take 1 = "/" then path.drop 1 else path
  | none => path

/-- Pipe host segment resolution from the `"pipe"` arm of `connect`: host
`localhost` is considered to mean `.`, and an absent host defaults to `.`
(`.map(|h| if h == "localhost" { "." } else { h }).unwrap_or(".")`). -/
def pipeHostSegment (host : Option String) : String :=
  match host with
  | some h => if h = "localhost" then "." else h
  | none => "."

/-- The pure address-resolution and validation part of `connect`
(tunnel_ext.rs, lines 160-251): scheme dispatch producing either the
`DialPlan` executed for the URL or the `io::Error` returned before any dial.

Mirrors the source arm by arm:
* `let host = url.host_str().unwrap_or("localhost")` for tcp/http/https/tls;
* `"tcp"`: `url.port()` is mandatory, a missing port is
  `InvalidInput, "missing port for tcp forwarding url {url}"`;
* `"http"`: `url.port().unwrap_or(80)`;
* `"https" | "tls"`: `url.port().unwrap_or(443)`, then TLS with SNI = host;
* `"unix"` (non-Windows builds only): `unixSocketAddr`;
* `"pipe"` (Windows builds only): empty resolved pipe name is
  `InvalidInput, "missing pipe name in forwarding url {url}"`, otherwise the
  full address `\\host\pipe\name` via `format!("\\\\{host}\\pipe\\{name}")`;
* anything else: `InvalidInput, "unrecognized scheme in forwarding url: {url}"`.

The execution of the plan (the actual dial, TLS handshake, and their I/O
errors) is outside this pure computation. -/
def connectPlan (pf : Platform) (u : Url) : Except IoError DialPlan :=
  let host := u.host.getD "localhost"
  if u.scheme = "tcp" then
    match u.port with
    | none =>
      .error ⟨.invalidInput, "missing port for tcp forwarding url " ++ u.render⟩
    | some port => .ok (.tcp host port)
  else if u.scheme = "http" then
    .ok (.tcp host (u.port.getD 80))
  else if u.scheme = "https" ∨ u.scheme = "tls" then
    .ok (.tlsTcp host (u.port.getD 443) host)
  else if u.scheme = "unix" ∧ pf = .notWindows then
    .ok (.unixSock (unixSocketAddr u.host u.path))
  else if u.scheme = "pipe" ∧ pf = .windows then
    let name := pipeResolvedName u.host u.path
    if name = "" then
      .error ⟨.invalidInput, "missing pipe name in forwarding url " ++ u.render⟩
    else
      .ok (.pipe ("\\\\" ++ pipeHostSegment u.host ++ "\\pipe\\" ++ name))
  else
    .error ⟨.invalidInput, "unrecognized scheme in forwarding url: " ++ u.render⟩

/-- The closed set of schemes `connect` dispatches on, per platform (the
match arms present in that build: `unix` only off Windows, `pipe` only on
Windows). -/
def supportedSchemes : Platform → List String
  | .windows => ["tcp", "http", "https", "tls", "pipe"]
  | .notWindows => ["tcp", "http", "https", "tls", "unix"]

/-! ## Failure degradation responder (`on_err`, `serve_gateway_error`) -/

/-- Observable shape of the single HTTP response `serve_gateway_error`
serves on the inbound connection: hyper is configured with
`http1_only(true)` and `http1_keep_alive(false)`, the handler sets status
`502 BAD_GATEWAY` and body `format!("failed to dial backend: {err}")`.
With keep-alive disabled, hyper writes `Connection: close` and closes the
inbound connection after this one response. -/
structure HttpResponse where
  status : Nat
  http1Only : Bool
  keepAlive : Bool
  body : String
deriving DecidableEq, Repr

/-- The response `serve_gateway_error` produces for a dial error whose
display string is `errMsg` (tunnel_ext.rs, lines 278-302). -/
def serveGatewayErrorResp (errMsg : String) : HttpResponse :=
  { status := 502, http1Only := true, keepAlive := false
    body := "failed to dial backend: " ++ errMsg }

/-- `on_err` (tunnel_ext.rs, lines 129-135), for builds with the `hyper`
feature: when the tunnel's declared protocol is `"http"` or `"https"` it
spawns `serve_gateway_error` on the inbound connection (returning the
response served before the connection is closed); for every other protocol
the match falls through to `_ => {}` and the inbound connection is simply
dropped (closed) with no response. `none` models the no-response close. -/
def onErr (proto : String) (e : IoError) : Option HttpResponse :=
  if proto = "http" ∨ proto = "https" then some (serveGatewayErrorResp e.msg)
  else none

/-- Decidable equality for `Except`, needed to evaluate the models on
concrete inputs. -/
instance exceptDecEq {ε α : Type} [DecidableEq ε] [DecidableEq α] :
    DecidableEq (Except ε α) := fun x y =>
  match x, y with
  | .ok a, .ok b => decidable_of_iff (a = b) (by simp)
  | .error a, .error b => decidable_of_iff (a = b) (by simp)
  | .ok _, .error _ => isFalse (by simp)
  | .error _, .ok _ => isFalse (by simp)

/-! ## Forwarding loop (`TunnelExt::forward`) -/

/-- One event of the tunnel source as observed by `self.try_next().await`
in the loop of `forward`:
* `conn proto dial` — `try_next` yielded an inbound connection; `proto` is
  the tunnel's declared protocol tag and `dial` is the outcome the
  destination dial (`connect`) produces for it;
* `srcErr msg` — `try_next` itself failed with an error displaying as `msg`.

End-of-source (`try_next` yielding `Ok(None)`) is the end of the list. -/
inductive SourceItem where
  | conn (proto : String) (dial : Except IoError Unit)
  | srcErr (msg : String)
deriving DecidableEq, Repr

/-- Per-connection outcome of one iteration of the `forward` loop. -/
inductive ConnOutcome where
  | relayed
  | degraded (resp : HttpResponse)
  | droppedSilently
deriving DecidableEq, Repr

/-- Handling of a single inbound connection inside the loop of `forward`:
a successful dial hands both streams to `join_streams` (relay); a failed
dial goes to `on_err`, which serves a gateway error for HTTP-family
protocols and otherwise drops the connection silently. -/
def handleConn (proto : String) (dial : Except IoError Unit) : ConnOutcome :=
  match dial with
  | .ok _ => .relayed
  | .error e =>
    match onErr proto e with
    | some resp => .degraded resp
    | none => .droppedSilently

/-- The loop of `TunnelExt::forward` (tunnel_ext.rs, lines 88-126) over a
source trace: returns the per-connection outcomes together with the loop's
return value. Mirrors the source: `try_next` yielding `Ok(None)` (end of
list) returns `Ok(())`; a source error returns
`io::Error::new(io::ErrorKind::NotConnected, err)` immediately; a dial
error is handled by `on_err` and the loop `continue`s; a successful dial is
handed to `join_streams` and the loop continues. -/
def forwardRun : List SourceItem → List ConnOutcome × Except IoError Unit
  | [] => ([], .ok ())
  | .srcErr m :: _ => ([], .error ⟨.notConnected, m⟩)
  | .conn p d :: rest =>
    let r := forwardRun rest
    (handleConn p d :: r.1, r.2)

/-- The first source failure in a source trace, skipping inbound
connections (which never stop the loop). -/
def firstSrcErr : List SourceItem → Option String
  | [] => none
  | .srcErr m :: _ => some m
  | .conn _ _ :: rest => firstSrcErr rest

/-! ## Main-task scheduling of the forward loop

`forward` runs as one task: each iteration awaits `try_next`, then awaits
`connect(...)` inline, and only then spawns the per-connection follow-up —
`join_streams` and `serve_gateway_error` both call `tokio::spawn` and
return a `JoinHandle` immediately, so relay/degradation time is spent off
the loop's path while dial time is spent on it. -/

/-- Time spent on a single connection: the duration of its destination dial
(awaited inline by the loop) and of its relay or degradation (performed by
the spawned task). -/
structure ConnTiming where
  dial : Nat
  relay : Nat
deriving DecidableEq, Repr

/-- The time at which each inbound connection is retrieved from the source,
derived from the control flow of `forward`: retrieval of connection 0
happens at time 0, and retrieval of connection `i+1` happens after the
inline `connect(...).await` for connection `i` completes, i.e. `dial i`
later; spawning the relay/degradation task is immediate, and its `relay`
duration elapses off the main task. -/
def mainLoopAcceptTimes : List ConnTiming → List Nat
  | [] => []
  | c :: rest => 0 :: (mainLoopAcceptTimes rest).map (· + c.dial)

/-! ## TLS client configuration cache (`tls_config`) -/

/-- Model of the `rustls::ClientConfig` built by `tls_config`: the root
store holds the DER certificates loaded from the OS trust store (each a
byte list; `add_parsable_certificates` — X.509 parsing abstracted, the load
environment supplies the parsed DER list), and `with_no_client_auth`
records that no client certificate is presented. -/
structure TlsClientConfig where
  roots : List (List Nat)
  noClientAuth : Bool
deriving DecidableEq, Repr

/-- The outcome the OS trust-store load (`rustls_native_certs::load_native_certs`)
would produce at a given moment: the DER certificates, or an `io::Error`. -/
abbrev TrustStoreLoad := Except IoError (List (List Nat))

/-- The result a single caller of `tls_config` observes. -/
abbrev TlsOutcome := Except IoError TlsClientConfig

/-- The initializer closure of the `static CONFIG: Lazy<...>` in
`tls_config`: `load_native_certs()?` propagates a load failure as the cached
error; on success the root store is built from the DER certificates and a
client-only configuration with no client auth is returned. -/
def computeTlsConfig (load : TrustStoreLoad) : TlsOutcome :=
  match load with
  | .error e => .error e
  | .ok certs => .ok { roots := certs, noClientAuth := true }

/-- State of the process-wide `Lazy` cell backing `tls_config`: the memoized
outcome once computed, plus a count of how many times the initializer (and
hence the trust-store load) has run. -/
structure TlsCacheState where
  cache : Option TlsOutcome
  loadAttempts : Nat
deriving DecidableEq, Repr

/-- One call to `tls_config` against the `Lazy` cell (tunnel_ext.rs, lines
137-154): if the cell is already initialized its value is returned as-is
(success or error) and the initializer does not run again; otherwise the
initializer runs once against the current trust-store environment and its
outcome is stored. `Lazy`'s thread-safe once-only initialization is what
makes this sequential state transition faithful even for concurrent
first-time callers. -/
def tlsConfigCall (env : TrustStoreLoad) (s : TlsCacheState) :
    TlsOutcome × TlsCacheState :=
  match s.cache with
  | some r => (r, s)
  | none =>
    let r := computeTlsConfig env
    (r, { cache := some r, loadAttempts := s.loadAttempts + 1 })

/-- A sequence of calls to `tls_config`, each against the trust-store
environment current at that call: returns every caller's observed outcome
and the final cache state. -/
def tlsCallSeq : List TrustStoreLoad → TlsCacheState →
    List TlsOutcome × TlsCacheState
  | [], s => ([], s)
  | env :: envs, s =>
    let r := tlsConfigCall env s
    let rs := tlsCallSeq envs r.2
    (r.1 :: rs.1, rs.2)

/-! ## Named-pipe busy-retry dial loop -/

/-- Outcome of one `ClientOptions::new().open(&addr)` attempt in the pipe
dial loop: a client handle (abstracted as a numeric identifier), the
`ERROR_PIPE_BUSY` OS error, or any other error. -/
inductive PipeAttempt where
  | opened (client : Nat)
  | busy
  | failed (e : IoError)
deriving DecidableEq, Repr

/-- The fixed delay, in milliseconds, between pipe open attempts
(`time::sleep(Duration::from_millis(50))`). -/
def pipeRetryDelayMs : Nat := 50

/-- The pipe dial loop of the `"pipe"` arm (tunnel_ext.rs, lines 233-241),
run against the sequence of outcomes successive open attempts would
produce: `Ok(client)` breaks out of the loop with the client, an error
whose raw OS error is `ERROR_PIPE_BUSY` falls through to a 50 ms sleep and
a retry, and any other error returns immediately. Returns the loop's result
together with the list of sleep durations performed before it, or `none`
when the given attempts are exhausted without the loop terminating (the
code has no attempt cap). -/
def pipeOpenLoop : List PipeAttempt → Option (Except IoError Nat × List Nat)
  | [] => none
  | .opened c :: _ => some (.ok c, [])
  | .failed e :: _ => some (.error e, [])
  | .busy :: rest =>
    match pipeOpenLoop rest with
    | none => none
    | some (r, ds) => some (r, pipeRetryDelayMs :: ds)

/-! ## Helper lemmas -/

/-- The return value of the forward loop is determined by the first failure
of the source itself: `Ok(())` when the source ends without one, otherwise
the `NotConnected` error wrapping it. -/
theorem forwardRun_result (items : List SourceItem) :
    (forwardRun items).2 = (match firstSrcErr items with
      | none => Except.ok ()
      | some m => Except.error ⟨IoErrorKind.notConnected, m⟩) := by
  induction items with
  | nil => rfl
  | cons i rest ih =>
    cases i with
    | srcErr m => rfl
    | conn p d => simpa [forwardRun, firstSrcErr] using ih

/-- Accept times of the forward loop depend only on the dial durations:
relay/degradation durations, spent in spawned tasks, never influence when
the next inbound connection is retrieved. -/
theorem acceptTimes_eq_of_dial_eq :
    ∀ (cs cs2 : List ConnTiming),
      cs.map ConnTiming.dial = cs2.map ConnTiming.dial →
      mainLoopAcceptTimes cs = mainLoopAcceptTimes cs2
  | [], [], _ => rfl
  | c :: cs, c2 :: cs2, h => by
    simp only [List.map_cons, List.cons.injEq] at h
    simp only [mainLoopAcceptTimes]
    rw [h.1, acceptTimes_eq_of_dial_eq cs cs2 h.2]
  | [], _ :: _, h => by simp at h
  | _ :: _, [], h => by simp at h

/-- Closed form of the accept times: connection `i` is retrieved exactly
after the sum of the dial durations of the connections before it. -/
theorem mainLoopAcceptTimes_eq_dial_sums :
    ∀ cs : List ConnTiming,
      mainLoopAcceptTimes cs =
        (List.range cs.length).map (fun i => ((cs.take i).map ConnTiming.dial).sum)
  | [] => rfl
  | c :: cs => by
    simp only [mainLoopAcceptTimes, mainLoopAcceptTimes_eq_dial_sums cs,
      List.length_cons, List.range_succ_eq_map, List.map_cons, List.map_map]
    refine congrArg (fun t => 0 :: t) ?_
    refine List.map_congr_left (fun i _ => ?_)
    simp [List.take_succ_cons, Nat.add_comm, Function.comp]

/-- Once the `Lazy` cell backing `tls_config` is initialized, every further
call returns the cached outcome unchanged and the initializer never runs
again, whatever the trust-store environment does meanwhile. -/
theorem tlsCallSeq_cached (envs : List TrustStoreLoad) (v : TlsOutcome) (n : Nat) :
    tlsCallSeq envs ⟨some v, n⟩ = (List.replicate envs.length v, ⟨some v, n⟩) := by
  induction envs with
  | nil => rfl
  | cons e es ih => simp [tlsCallSeq, tlsConfigCall, ih, List.replicate_succ]

/-- A run of `n` busy attempts contributes exactly `n` fixed-delay sleeps
in front of whatever the loop does next. -/
theorem pipeOpenLoop_busy_replicate (n : Nat) (rest : List PipeAttempt) :
    pipeOpenLoop (List.replicate n .busy ++ rest) =
      (pipeOpenLoop rest).map (fun r => (r.1, List.replicate n pipeRetryDelayMs ++ r.2)) := by
  induction n with
  | zero => cases h : pipeOpenLoop rest <;> simp [h]
  | succ k ih =>
    rw [List.replicate_succ, List.cons_append]
    show (match pipeOpenLoop (List.replicate k .busy ++ rest) with
      | none => none
      | some (r, ds) => some (r, pipeRetryDelayMs :: ds)) = _
    rw [ih]
    cases h : pipeOpenLoop rest <;> simp [h, List.replicate_succ]

/-! ## Claims -/

/-- Claim C1, counterexample. The claim states that a slow or hanging dial
for one connection does not delay retrieval of the next inbound connection.
In the code, `connect(...)` is awaited inline on the loop's own path
(only `join_streams` / `serve_gateway_error` are spawned), so raising the
first connection's dial duration from 0 to 100 moves the retrieval of the
second connection from time 0 to time 100: the claim is false. -/
theorem forward_accept_delayed_by_dial_cex :
    (mainLoopAcceptTimes [⟨100, 0⟩, ⟨0, 0⟩])[1]? = some 100
    ∧ (mainLoopAcceptTimes [⟨0, 0⟩, ⟨0, 0⟩])[1]? = some 0 := by decide

/-- Claim C1, amended: for every inbound connection the subsequent handling
(relay or degradation) proceeds as an independently-progressing spawned
unit of work whose duration never delays retrieval of later inbound
connections (accept times depend only on dial durations); the destination
dial, however, is awaited inline by the loop, so each connection is
retrieved exactly after the sum of the dial durations of the connections
before it — a slow or hanging dial for one connection does delay retrieval
of the next. -/
theorem forward_relay_spawned_dial_awaited_inline (cs cs2 : List ConnTiming) :
    (cs.map ConnTiming.dial = cs2.map ConnTiming.dial →
      mainLoopAcceptTimes cs = mainLoopAcceptTimes cs2)
    ∧ mainLoopAcceptTimes cs =
        (List.range cs.length).map (fun i => ((cs.take i).map ConnTiming.dial).sum) :=
  ⟨acceptTimes_eq_of_dial_eq cs cs2, mainLoopAcceptTimes_eq_dial_sums cs⟩

/-- Claim C1, amended, witness: two traces agreeing on dial durations but
with different relay durations have identical accept times. -/
theorem forward_relay_spawned_dial_awaited_inline_witness :
    mainLoopAcceptTimes [⟨5, 1000⟩, ⟨7, 0⟩] = mainLoopAcceptTimes [⟨5, 0⟩, ⟨7, 3⟩] :=
  (forward_relay_spawned_dial_awaited_inline [⟨5, 1000⟩, ⟨7, 0⟩] [⟨5, 0⟩, ⟨7, 3⟩]).1 (by decide)

/-- Claim C2: `forward` returns `Ok(())` exactly when the source ends
without a source failure; when retrieving from the source fails, it returns
that failure wrapped as a `NotConnected` (`SourceUnavailable`) error; and a
dial failure (or relay outcome) of an individual connection never causes
`forward` to return — the loop's return value over `conn :: rest` is the
return value over `rest`, whatever the connection's dial outcome. -/
theorem forward_return_conditions (items : List SourceItem)
    (p : String) (d : Except IoError Unit) (rest : List SourceItem) :
    ((forwardRun items).2 = .ok () ↔ firstSrcErr items = none)
    ∧ (forwardRun items).2 = (match firstSrcErr items with
        | none => Except.ok ()
        | some m => Except.error ⟨IoErrorKind.notConnected, m⟩)
    ∧ (forwardRun (.conn p d :: rest)).2 = (forwardRun rest).2 := by
  refine ⟨?_, forwardRun_result items, rfl⟩
  rw [forwardRun_result items]
  cases h : firstSrcErr items <;> simp

/-- Claim C3: the TLS client configuration is computed at most once per
process. Over any sequence of calls beginning from the uninitialized cache,
every caller — the one that triggers the computation and every later one —
observes the single outcome computed from the trust-store environment of the
first call (identical success value or identical cached error), the load is
attempted exactly once, and later environments are never consulted. -/
theorem tls_config_memoized_once (env : TrustStoreLoad) (envs : List TrustStoreLoad) :
    (tlsCallSeq (env :: envs) ⟨none, 0⟩).1 =
      List.replicate (envs.length + 1) (computeTlsConfig env)
    ∧ (tlsCallSeq (env :: envs) ⟨none, 0⟩).2 = ⟨some (computeTlsConfig env), 1⟩ := by
  simp [tlsCallSeq, tlsConfigCall, tlsCallSeq_cached, List.replicate_succ]

/-- Claim C4: port resolution by scheme in the destination connector — a
`tcp` URL without a port fails with an `InvalidInput` (`InvalidDestination`)
error and with a port dials it; an `http` URL without a port defaults to
80; `https` and `tls` URLs without a port default to 443 (dialing TCP then
TLS with SNI set to the host). -/
theorem connect_port_resolution (pf : Platform) (h : Option String)
    (path : String) (pt : Nat) :
    connectPlan pf ⟨"tcp", h, none, path⟩ =
      .error ⟨.invalidInput,
        "missing port for tcp forwarding url " ++ Url.render ⟨"tcp", h, none, path⟩⟩
    ∧ connectPlan pf ⟨"tcp", h, some pt, path⟩ = .ok (.tcp (h.getD "localhost") pt)
    ∧ connectPlan pf ⟨"http", h, none, path⟩ = .ok (.tcp (h.getD "localhost") 80)
    ∧ connectPlan pf ⟨"https", h, none, path⟩ =
        .ok (.tlsTcp (h.getD "localhost") 443 (h.getD "localhost"))
    ∧ connectPlan pf ⟨"tls", h, none, path⟩ =
        .ok (.tlsTcp (h.getD "localhost") 443 (h.getD "localhost")) := by
  refine ⟨rfl, rfl, ?_, ?_, ?_⟩ <;> simp [connectPlan]

/-- Claim C5: on a dial failure, when the inbound connection's declared
protocol tag is `http` or `https`, exactly one HTTP/1.1 response with
status 502 and keep-alive disabled, whose body describes the dial failure,
is served on the inbound connection before it is closed; for every other
protocol tag the connection is closed without any response. -/
theorem on_err_http_family_gateway_502 (e : IoError) (proto : String) :
    onErr "http" e = some (serveGatewayErrorResp e.msg)
    ∧ onErr "https" e = some (serveGatewayErrorResp e.msg)
    ∧ (serveGatewayErrorResp e.msg).status = 502
    ∧ (serveGatewayErrorResp e.msg).keepAlive = false
    ∧ (serveGatewayErrorResp e.msg).http1Only = true
    ∧ (serveGatewayErrorResp e.msg).body = "failed to dial backend: " ++ e.msg
    ∧ (proto ≠ "http" → proto ≠ "https" → onErr proto e = none) := by
  refine ⟨by simp [onErr], by simp [onErr], rfl, rfl, rfl, rfl,
    fun h1 h2 => by simp [onErr, h1, h2]⟩

/-- Claim C5, witness: a `tcp`-tagged inbound connection gets no response
on dial failure. -/
theorem on_err_http_family_gateway_502_witness :
    onErr "tcp" ⟨IoErrorKind.osOther, "connection refused"⟩ = none :=
  (on_err_http_family_gateway_502 ⟨IoErrorKind.osOther, "connection refused"⟩ "tcp").2.2.2.2.2.2
    (by decide) (by decide)

/-- Claim C6: unix socket path resolution — with a host component the host
is concatenated with the URL path (a relative socket path), without one the
path is used as-is; the documented forms `unix://host/path` (parsed host
`host`, path `/path`), `unix:relative/path` (no host), and
`unix:///abs/path` / `unix:/abs/path` (empty or no host, path `/abs/path`)
resolve to `host/path`, `relative/path` and `/abs/path` respectively. -/
theorem unix_socket_path_resolution (h path : String) :
    unixSocketAddr (some h) path = h ++ path
    ∧ unixSocketAddr none path = path
    ∧ connectPlan .notWindows ⟨"unix", some "host", none, "/path"⟩ = .ok (.unixSock "host/path")
    ∧ connectPlan .notWindows ⟨"unix", none, none, "relative/path"⟩ = .ok (.unixSock "relative/path")
    ∧ connectPlan .notWindows ⟨"unix", none, none, "/abs/path"⟩ = .ok (.unixSock "/abs/path")
    ∧ connectPlan .notWindows ⟨"unix", some "", none, "/abs/path"⟩ = .ok (.unixSock "/abs/path") :=
  ⟨rfl, rfl, by decide, by decide, by decide, by decide⟩

/-- Claim C7: scheme dispatch is exhaustive over the closed per-platform
set of supported schemes; every URL whose scheme lies outside that set
fails with an `InvalidInput` (`InvalidDestination`) error whose message
names the offending URL, and such a per-connection failure leaves the
forward loop's processing of subsequent connections (and its return value)
unchanged. -/
theorem unrecognized_scheme_rejected (pf : Platform) (u : Url)
    (proto : String) (rest : List SourceItem)
    (hns : u.scheme ∉ supportedSchemes pf) :
    connectPlan pf u =
      .error ⟨.invalidInput, "unrecognized scheme in forwarding url: " ++ u.render⟩
    ∧ (forwardRun (.conn proto
        (.error ⟨.invalidInput, "unrecognized scheme in forwarding url: " ++ u.render⟩)
        :: rest)).2 = (forwardRun rest).2 := by
  refine ⟨?_, rfl⟩
  cases pf <;>
  · simp only [supportedSchemes, List.mem_cons, List.not_mem_nil, or_false, not_or] at hns
    obtain ⟨h1, h2, h3, h4, h5⟩ := hns
    simp [connectPlan, h1, h2, h3, h4, h5]

/-- Claim C7, witness: `ftp://host` is rejected with the documented error
and does not disturb the rest of the loop. -/
theorem unrecognized_scheme_rejected_witness :
    connectPlan .notWindows ⟨"ftp", some "host", none, ""⟩ =
      .error ⟨.invalidInput,
        "unrecognized scheme in forwarding url: " ++ Url.render ⟨"ftp", some "host", none, ""⟩⟩
    ∧ (forwardRun [.conn "tcp" (.error ⟨.invalidInput,
        "unrecognized scheme in forwarding url: " ++ Url.render ⟨"ftp", some "host", none, ""⟩⟩)]).2
      = (forwardRun []).2 :=
  unrecognized_scheme_rejected .notWindows ⟨"ftp", some "host", none, ""⟩ "tcp" [] (by decide)

/-- Claim C8: in the named-pipe dial loop only the "resource busy" error is
retried, at the fixed 50 ms interval with no attempt cap — for every `n`,
`n` busy attempts followed by a success return that success after exactly
`n` fixed-delay sleeps; `n` busy attempts followed by any non-busy error
return that error, the first non-busy error being terminal and returned
immediately, with no retry and no sleep after it. -/
theorem pipe_dial_busy_retry (n : Nat) (c : Nat) (e : IoError)
    (rest rest2 : List PipeAttempt) :
    pipeOpenLoop (List.replicate n .busy ++ .opened c :: rest) =
      some (.ok c, List.replicate n pipeRetryDelayMs)
    ∧ pipeOpenLoop (List.replicate n .busy ++ .failed e :: rest2) =
      some (.error e, List.replicate n pipeRetryDelayMs)
    ∧ pipeOpenLoop (.failed e :: rest2) = some (.error e, []) := by
  refine ⟨?_, ?_, rfl⟩ <;> simp [pipeOpenLoop_busy_replicate, pipeOpenLoop]

/-- Claim C9: named-pipe address resolution — the host segment of the full
pipe address maps `localhost` to `.`, as it does an absent host; a pipe URL
whose resolved pipe name is empty fails with an `InvalidInput`
(`InvalidDestination`) error from the pure resolution step, before any dial
attempt (no `DialPlan` is produced for the dial loop to run on); non-empty
names assemble the documented full address `\\host\pipe\name`. -/
theorem pipe_address_resolution (h : String) (pt? : Option Nat) :
    pipeHostSegment (some "localhost") = "."
    ∧ pipeHostSegment none = "."
    ∧ pipeHostSegment (some h) = (if h = "localhost" then "." else h)
    ∧ connectPlan .windows ⟨"pipe", some h, pt?, "/"⟩ =
        .error ⟨.invalidInput,
          "missing pipe name in forwarding url " ++ Url.render ⟨"pipe", some h, pt?, "/"⟩⟩
    ∧ connectPlan .windows ⟨"pipe", none, pt?, ""⟩ =
        .error ⟨.invalidInput,
          "missing pipe name in forwarding url " ++ Url.render ⟨"pipe", none, pt?, ""⟩⟩
    ∧ connectPlan .windows ⟨"pipe", some "localhost", pt?, "/mypipe"⟩ =
        .ok (.pipe "\\\\.\\pipe\\mypipe")
    ∧ connectPlan .windows ⟨"pipe", none, pt?, "mypipe"⟩ =
        .ok (.pipe "\\\\.\\pipe\\mypipe")
    ∧ connectPlan .windows ⟨"pipe", some "srv", pt?, "/name"⟩ =
        .ok (.pipe "\\\\srv\\pipe\\name") := by
  refine ⟨rfl, rfl, rfl, ?_, ?_, ?_, ?_, ?_⟩ <;>
    simp +decide [connectPlan, pipeResolvedName, pipeHostSegment]

/-- Claim C10: for every `tcp`, `http`, `https` or `tls` destination URL
without a host component, the connector substitutes host `localhost` before
port resolution and dials it — `url.host_str().unwrap_or("localhost")`. -/
theorem connect_missing_host_defaults_localhost (pf : Platform) (path : String)
    (pt : Nat) (pt? : Option Nat) :
    connectPlan pf ⟨"tcp", none, some pt, path⟩ = .ok (.tcp "localhost" pt)
    ∧ connectPlan pf ⟨"http", none, pt?, path⟩ = .ok (.tcp "localhost" (pt?.getD 80))
    ∧ connectPlan pf ⟨"https", none, pt?, path⟩ =
        .ok (.tlsTcp "localhost" (pt?.getD 443) "localhost")
    ∧ connectPlan pf ⟨"tls", none, pt?, path⟩ =
        .ok (.tlsTcp "localhost" (pt?.getD 443) "localhost") := by
  refine ⟨rfl, ?_, ?_, ?_⟩ <;> simp [connectPlan]
